import Mathlib

/-!
Verification of the simulated-annealing core of the Metaheuristics repository.

The embedding follows the two source files:
- `metaheuristics/tools/optimization_problem.py` (class `OptimizationProblem`)
- `metaheuristics/annealing/simulated_annealing.py` (class `SimulatedAnnealing`)

Two leaf classes are imported by those files but their sources are not
provided: `OptimizationSolution` and `TempParams`.  They are modelled from
the specification (see their doc comments).

Because Python is dynamically typed, candidate values are embedded as a
dynamic value type `Val α`: either a raw caller-level value (`base`) or an
`OptimizationSolution` object that flowed into a value position (`sol`).
Attribute access on a dynamic value can raise `AttributeError`, which the
embedding models with `Except`.  Caller-supplied objective functions and
solution updaters are arbitrary total functions on dynamic values.

Randomness (`np.random.rand()`) is modelled by an ambient stream
`rng : ℕ → ℝ` together with a cursor: drawing consumes one position.
-/

/-- Errors the embedded code can raise: attribute lookup on an object that
does not have the attribute (Python `AttributeError`). -/
inductive PyError where
  | attributeError : PyError
deriving DecidableEq

/-- A dynamically typed Python value whose caller-level payload has type `α`:
either a raw caller value, or an `OptimizationSolution` object
(a solution value paired with a stored objective value) used in a value
position. -/
inductive Val (α : Type) where
  | base : α → Val α
  | sol : Val α → ℝ → Val α

/-- Modelled from the spec: the `OptimizationSolution` class
(`metaheuristics/tools/optimization_solution.py`, not among the provided
sources) is an immutable pairing of a candidate value with its evaluated
objective score, constructed from `(value, objective_value)` with no
validation and exposing read accessors for both fields. -/
structure OptimizationSolution (α : Type) where
  solution_value : Val α
  objective_value : ℝ

/-- Reading the `get_solution_value` accessor on a typed
`OptimizationSolution` object. -/
def OptimizationSolution.get_solution_value {α : Type} (s : OptimizationSolution α) : Val α :=
  s.solution_value

/-- Reading the `get_objective_value` accessor on a typed
`OptimizationSolution` object. -/
def OptimizationSolution.get_objective_value {α : Type} (s : OptimizationSolution α) : ℝ :=
  s.objective_value

/-- An `OptimizationSolution` object placed in a dynamically typed value
position. -/
def OptimizationSolution.toVal {α : Type} (s : OptimizationSolution α) : Val α :=
  .sol s.solution_value s.objective_value

/-- Dynamic attribute call `v.get_objective_value()`: succeeds only when the
value is an `OptimizationSolution` object, otherwise Python raises
`AttributeError`. -/
def Val.dyn_objective_value {α : Type} : Val α → Except PyError ℝ
  | .sol _ o => .ok o
  | .base _ => .error .attributeError

/-- The `OptimizationProblem` class
(`metaheuristics/tools/optimization_problem.py`): the two caller-supplied
pure functions together with the owned `_current_solution` slot. -/
structure OptimizationProblem (α : Type) where
  objective_function : Val α → ℝ
  solution_updater : Val α → Val α
  current_solution : OptimizationSolution α

/-- `OptimizationProblem.__init__`: stores the two functions and sets
`_current_solution = OptimizationSolution(initial_solution_value,
objective_function(initial_solution_value))`. -/
def OptimizationProblem.init {α : Type} (initial_solution_value : Val α)
    (objective_function : Val α → ℝ) (solution_updater : Val α → Val α) :
    OptimizationProblem α :=
  { objective_function := objective_function
    solution_updater := solution_updater
    current_solution :=
      ⟨initial_solution_value, objective_function initial_solution_value⟩ }

/-- `get_current_solution`: returns
`self._current_solution.get_solution_value()` — the raw stored value, not
the `OptimizationSolution` object. -/
def OptimizationProblem.get_current_solution {α : Type} (p : OptimizationProblem α) : Val α :=
  p.current_solution.get_solution_value

/-- `get_objective_function`: returns the stored objective function. -/
def OptimizationProblem.get_objective_function {α : Type} (p : OptimizationProblem α) :
    Val α → ℝ :=
  p.objective_function

/-- `get_current_objective_value`: returns
`self._current_solution.get_objective_value()`. -/
def OptimizationProblem.get_current_objective_value {α : Type} (p : OptimizationProblem α) : ℝ :=
  p.current_solution.get_objective_value

/-- `find_neighbour_solution`: applies `_solution_updater` to the current
value, evaluates `_objective_function` on the result and returns a fresh
`OptimizationSolution`.  The method body contains no assignment to `self`,
so the problem state is returned unchanged (state-passing style, to make
the frame property explicit). -/
def OptimizationProblem.find_neighbour_solution {α : Type} (p : OptimizationProblem α) :
    OptimizationSolution α × OptimizationProblem α :=
  let curr_solution_val := p.current_solution.get_solution_value
  let new_solution_val := p.solution_updater curr_solution_val
  (⟨new_solution_val, p.objective_function new_solution_val⟩, p)

/-- `update_current_solution(new_solution_val)`: replaces
`_current_solution` by
`OptimizationSolution(new_solution_val, self.get_objective_function()(new_solution_val))`. -/
def OptimizationProblem.update_current_solution {α : Type} (p : OptimizationProblem α)
    (new_solution_val : Val α) : OptimizationProblem α :=
  { p with current_solution :=
      ⟨new_solution_val, p.get_objective_function new_solution_val⟩ }

/-- The data-model invariant of the spec: the stored objective value of the
current solution is the objective function applied to its stored value. -/
def OptimizationProblem.objective_consistent {α : Type} (p : OptimizationProblem α) : Prop :=
  p.current_solution.objective_value = p.objective_function p.current_solution.solution_value

/-- One call of the objective function, instrumented with a call counter:
used to state that construction evaluates the objective exactly once. -/
def countedCall {α : Type} (objective_function : Val α → ℝ) (v : Val α) (calls : ℕ) :
    ℝ × ℕ :=
  (objective_function v, calls + 1)

/-- `OptimizationProblem.__init__` with its single objective-function call
site instrumented by `countedCall`; returns the constructed problem and the
final call count. -/
def OptimizationProblem.init_counted {α : Type} (initial_solution_value : Val α)
    (objective_function : Val α → ℝ) (solution_updater : Val α → Val α) (calls : ℕ) :
    OptimizationProblem α × ℕ :=
  let r := countedCall objective_function initial_solution_value calls
  ({ objective_function := objective_function
     solution_updater := solution_updater
     current_solution := ⟨initial_solution_value, r.1⟩ }, r.2)

/-- Modelled from the spec: the `TempParams` class
(`metaheuristics/annealing/temp_params.py`, not among the provided sources)
owns the current temperature and the rule for lowering it, exposing
`get_current_temp() -> real` and `update_temp() -> void` (advance the
schedule once).  It is modelled as a stream of temperature values together
with a position: any concrete decay rule is an instance. -/
structure TempParams where
  temp_seq : ℕ → ℝ
  idx : ℕ

/-- `TempParams.get_current_temp()`: the temperature at the current
position of the schedule. -/
def TempParams.get_current_temp (tp : TempParams) : ℝ :=
  tp.temp_seq tp.idx

/-- `TempParams.update_temp()`: advance the schedule by one step. -/
def TempParams.update_temp (tp : TempParams) : TempParams :=
  { tp with idx := tp.idx + 1 }

/-- The `SimulatedAnnealing` class
(`metaheuristics/annealing/simulated_annealing.py`): the temperature
parameters, the iteration function and the problem being solved. -/
structure SimulatedAnnealing (α : Type) where
  temp_params : TempParams
  iteration_function : ℕ → ℕ
  problem : OptimizationProblem α

/-- `SimulatedAnnealing.annealing_function(old_value, new_value)`: returns
0 when the current temperature equals 0, otherwise
`1 / np.exp((new_value - old_value) / current_temp)`.  The method reads
only `self._temp_params`, so it is embedded over `TempParams`. -/
noncomputable def annealing_function (tp : TempParams) (old_value new_value : ℝ) : ℝ :=
  if tp.get_current_temp = 0 then 0
  else
    1 / Real.exp ((new_value - old_value) / tp.get_current_temp)

/-- `SimulatedAnnealing.should_change_solution(old_value, new_value)`:
returns `True` immediately on strict improvement; otherwise draws
`np.random.rand()` (the stream value at the current cursor, advancing the
cursor) and accepts iff the draw is `<=` the annealing function value.
Returns the decision together with the new random cursor. -/
noncomputable def should_change_solution (tp : TempParams) (rng : ℕ → ℝ)
    (old_value new_value : ℝ) (rix : ℕ) : Bool × ℕ :=
  if new_value < old_value then (true, rix)
  else
    let random_number := rng rix
    let annealing_value := annealing_function tp old_value new_value
    (decide (random_number ≤ annealing_value), rix + 1)

/-- `SimulatedAnnealing.run_annealing_step()`: reads
`self._problem.get_current_solution()` (which yields the raw stored value),
obtains one neighbour `OptimizationSolution` via
`find_neighbour_solution`, calls `.get_objective_value()` on both — a
dynamic attribute access on the raw current value, which raises
`AttributeError` when that value is not an `OptimizationSolution` object —
and returns the neighbour if accepted, else the raw current value.
Returns the chosen value, the (unchanged, threaded) annealer state and the
new random cursor. -/
noncomputable def run_annealing_step {α : Type} (sa : SimulatedAnnealing α) (rng : ℕ → ℝ)
    (rix : ℕ) : Except PyError (Val α × SimulatedAnnealing α × ℕ) := do
  let curr_solution := sa.problem.get_current_solution
  let nbr := sa.problem.find_neighbour_solution
  let new_solution := nbr.1
  let sa1 : SimulatedAnnealing α := { sa with problem := nbr.2 }
  let old_value ← curr_solution.dyn_objective_value
  let new_value := new_solution.get_objective_value
  let d := should_change_solution sa1.temp_params rng old_value new_value rix
  if d.1 then
    pure (new_solution.toVal, sa1, d.2)
  else
    pure (curr_solution, sa1, d.2)

/-- The inner loop of `perform_annealing_iteration`:
`for _ in range(k): new_solution = self.run_annealing_step();
self._problem.update_current_solution(new_solution)` — each chosen value is
committed before the next step runs.  A raised `AttributeError`
propagates. -/
noncomputable def annealing_steps {α : Type} (rng : ℕ → ℝ) :
    ℕ → SimulatedAnnealing α → ℕ → Except PyError (SimulatedAnnealing α × ℕ)
  | 0, sa, rix => .ok (sa, rix)
  | k + 1, sa, rix => do
      let r ← run_annealing_step sa rng rix
      let sa1 := r.2.1
      let sa2 : SimulatedAnnealing α :=
        { sa1 with problem := sa1.problem.update_current_solution r.1 }
      annealing_steps rng k sa2 r.2.2

/-- `SimulatedAnnealing.perform_annealing_iteration(iter_count, temps,
solutions)`: runs `self._iteration_function(iter_count)` inner steps, then
writes the current temperature to `temps[iter_count]` and
`self._problem.get_current_solution()` (the raw stored value) to
`solutions[iter_count]`, then calls `self._temp_params.update_temp()`.
History buffers are caller-owned indexable sequences, embedded as
functions from index to entry.  Returns the updated annealer state,
buffers and random cursor. -/
noncomputable def perform_annealing_iteration {α : Type} (rng : ℕ → ℝ)
    (sa : SimulatedAnnealing α) (iter_count : ℕ) (temps : ℕ → ℝ)
    (solutions : ℕ → Val α) (rix : ℕ) :
    Except PyError (SimulatedAnnealing α × (ℕ → ℝ) × (ℕ → Val α) × ℕ) := do
  let r ← annealing_steps rng (sa.iteration_function iter_count) sa rix
  let sa1 := r.1
  let temps1 := Function.update temps iter_count sa1.temp_params.get_current_temp
  let solutions1 := Function.update solutions iter_count sa1.problem.get_current_solution
  let sa2 : SimulatedAnnealing α := { sa1 with temp_params := sa1.temp_params.update_temp }
  pure (sa2, temps1, solutions1, r.2)

/-- A concrete annealer over natural-number payloads whose iteration
function returns 0 for every index: constant schedule at temperature 2,
problem initialised with raw value 4 and constant objective 3. -/
def C6sa : SimulatedAnnealing ℕ :=
  ⟨⟨fun _ => 2, 0⟩, fun _ => 0,
    OptimizationProblem.init (Val.base 4) (fun _ => 3) (fun v => v)⟩

/-- Bind on `Except` applied to a success. -/
theorem except_bind_ok {ε β γ : Type} (a : β) (f : β → Except ε γ) :
    (Except.ok a >>= f : Except ε γ) = f a := rfl

/-- Bind on `Except` applied to a raised error. -/
theorem except_bind_error {ε β γ : Type} (e : ε) (f : β → Except ε γ) :
    (Except.error e >>= f : Except ε γ) = Except.error e := rfl

/-- A successful `run_annealing_step` leaves the annealer state unchanged:
the step neither commits to the problem nor touches the schedule (the only
state it moves is the random cursor). -/
theorem run_annealing_step_state {α : Type} (sa : SimulatedAnnealing α) (rng : ℕ → ℝ)
    (rix : ℕ) (v : Val α) (sa' : SimulatedAnnealing α) (rix' : ℕ)
    (h : run_annealing_step sa rng rix = .ok (v, sa', rix')) : sa' = sa := by
  cases hv : Val.dyn_objective_value (sa.problem.get_current_solution) with
  | error e =>
      simp [run_annealing_step, hv, except_bind_error] at h
  | ok ov =>
      simp [run_annealing_step, hv, except_bind_ok, OptimizationProblem.find_neighbour_solution,
        pure, Except.pure] at h
      split at h <;>
      · simp only [Except.ok.injEq, Prod.mk.injEq] at h
        exact h.2.1.symm

/-- Successful inner loops leave the temperature schedule and the iteration
function untouched: only the problem state and the random cursor move. -/
theorem annealing_steps_state {α : Type} (rng : ℕ → ℝ) :
    ∀ (k : ℕ) (sa : SimulatedAnnealing α) (rix : ℕ) (sa' : SimulatedAnnealing α) (rix' : ℕ),
      annealing_steps rng k sa rix = .ok (sa', rix') →
      sa'.temp_params = sa.temp_params ∧ sa'.iteration_function = sa.iteration_function := by
  intro k
  induction k with
  | zero =>
      intro sa rix sa' rix' h
      simp [annealing_steps] at h
      simp [h.1.symm]
  | succ n ih =>
      intro sa rix sa' rix' h
      cases hr : run_annealing_step sa rng rix with
      | error e => simp [annealing_steps, hr, except_bind_error] at h
      | ok r =>
          obtain ⟨v, sab, rixb⟩ := r
          have hsab : sab = sa := run_annealing_step_state sa rng rix v sab rixb hr
          rw [annealing_steps, hr, except_bind_ok] at h
          have := ih _ _ _ _ h
          simp [hsab] at this
          exact this

/-- Claim C1 (code bug): the claim says `run_annealing_step` reads the
current solution of the Problem together with its objective value and
returns a Solution.  In the code, `get_current_solution()` returns the raw
stored value, on which `run_annealing_step` then calls
`.get_objective_value()`: on an ordinary problem (here, payload 0 with a
constant objective) this dynamic attribute access raises `AttributeError`
instead of returning any solution. -/
theorem C1_run_annealing_step_raises :
    run_annealing_step
      ⟨⟨fun _ => 1, 0⟩, fun _ => 1,
        OptimizationProblem.init (Val.base 0 : Val ℕ) (fun _ => 0) (fun v => v)⟩
      (fun _ => 0) 0 = .error .attributeError := rfl

/-- Claim C2 (code bug): the claim says `perform_annealing_iteration`
executes exactly `k = iteration_function(i)` inner steps, committing each
chosen solution.  On an ordinary freshly constructed problem with `k = 2`,
the first inner step already raises `AttributeError` (see C1), so the
iteration performs no step, commits nothing, and propagates the error. -/
theorem C2_perform_annealing_iteration_raises :
    perform_annealing_iteration (fun _ => 0)
      ⟨⟨fun _ => 10, 0⟩, fun _ => 2,
        OptimizationProblem.init (Val.base 5 : Val ℕ) (fun _ => 1) (fun v => v)⟩
      0 (fun _ => (0:ℝ)) (fun _ => Val.base 0) 0 = .error .attributeError := rfl

/-- Claim C3 (counterexample): at temperature 0 with `new_value = 6 >
old_value = 5`, the random draw 0 — a possible value of a uniform draw in
`[0,1)` — is accepted, because the code compares `random_number <=
annealing_value` and the annealing value is 0.  The claim as stated says
the candidate is rejected for every draw in `[0,1)`. -/
theorem C3_zero_temp_zero_draw_accepts :
    should_change_solution ⟨fun _ => 0, 0⟩ (fun _ => 0) 5 6 0 = (true, 1) := by
  simp [should_change_solution, annealing_function, TempParams.get_current_temp]
  norm_num

/-- Claim C3 (amended): when the current temperature is exactly 0 and
`new_value > old_value`, the acceptance weight is 0 and no division
occurs, and `should_change_solution` returns `false` for every strictly
positive random draw (one draw is consumed); only the draw exactly 0
accepts. -/
theorem C3_zero_temp_rejects_positive_draw (tp : TempParams) (rng : ℕ → ℝ)
    (old_value new_value : ℝ) (rix : ℕ) (htemp : tp.get_current_temp = 0)
    (hworse : old_value < new_value) (hdraw : 0 < rng rix) :
    should_change_solution tp rng old_value new_value rix = (false, rix + 1) ∧
      annealing_function tp old_value new_value = 0 := by
  have hfn : annealing_function tp old_value new_value = 0 := by
    simp [annealing_function, htemp]
  refine ⟨?_, hfn⟩
  rw [should_change_solution, if_neg (not_lt.mpr hworse.le)]
  simp [hfn, decide_eq_false_iff_not, not_le, hdraw]

/-- Claim C3 witness: the amended statement at temperature 0, objective
values 5 and 6 and draw one half. -/
theorem C3_zero_temp_rejects_positive_draw_witness :
    should_change_solution ⟨fun _ => 0, 0⟩ (fun _ => (1:ℝ)/2) 5 6 0 = (false, 1) ∧
      annealing_function ⟨fun _ => 0, 0⟩ 5 6 = 0 :=
  C3_zero_temp_rejects_positive_draw ⟨fun _ => 0, 0⟩ (fun _ => (1:ℝ)/2) 5 6 0 rfl
    (by norm_num) (by norm_num)

/-- Claim C4 (confirmed): `should_change_solution` returns `true` and
consumes no random draw whenever `new_value < old_value`; otherwise it
consumes exactly one draw (the cursor advances by one) and accepts iff
the draw is at most `annealing_function(old_value, new_value)`. -/
theorem C4_should_change_solution_contract (tp : TempParams) (rng : ℕ → ℝ)
    (old_value new_value : ℝ) (rix : ℕ) :
    (new_value < old_value →
        should_change_solution tp rng old_value new_value rix = (true, rix)) ∧
      (¬ new_value < old_value →
        ((should_change_solution tp rng old_value new_value rix).1 = true ↔
            rng rix ≤ annealing_function tp old_value new_value) ∧
          (should_change_solution tp rng old_value new_value rix).2 = rix + 1) := by
  constructor
  · intro h
    simp [should_change_solution, h]
  · intro h
    simp [should_change_solution, h]

/-- Claim C4 witness: strict improvement 3 < 5 accepted with the cursor
unmoved; tie 5 = 5 consumes one draw and accepts iff the draw is at most
the annealing value. -/
theorem C4_should_change_solution_contract_witness :
    should_change_solution ⟨fun _ => 1, 0⟩ (fun _ => (1:ℝ)/2) 5 3 0 = (true, 0) ∧
      ((should_change_solution ⟨fun _ => 1, 0⟩ (fun _ => (1:ℝ)/2) 5 5 0).1 = true ↔
        (1:ℝ)/2 ≤ annealing_function ⟨fun _ => 1, 0⟩ 5 5) ∧
      (should_change_solution ⟨fun _ => 1, 0⟩ (fun _ => (1:ℝ)/2) 5 5 0).2 = 1 := by
  have h1 := (C4_should_change_solution_contract ⟨fun _ => 1, 0⟩
    (fun _ => (1:ℝ)/2) 5 3 0).1 (by norm_num)
  have h2 := (C4_should_change_solution_contract ⟨fun _ => 1, 0⟩
    (fun _ => (1:ℝ)/2) 5 5 0).2 (by norm_num)
  exact ⟨h1, h2.1, h2.2⟩

/-- Claim C5 (confirmed): `annealing_function` returns exactly 0 whenever
the current temperature is 0, regardless of the two objective values; for
any nonzero temperature it returns the reciprocal of
`exp((new_value - old_value) / temp)`, which equals exactly 1 when the two
values are equal and the temperature is positive. -/
theorem C5_annealing_function_contract (tp : TempParams) (old_value new_value : ℝ) :
    (tp.get_current_temp = 0 → annealing_function tp old_value new_value = 0) ∧
      (tp.get_current_temp ≠ 0 →
        annealing_function tp old_value new_value =
          1 / Real.exp ((new_value - old_value) / tp.get_current_temp)) ∧
      (new_value = old_value → 0 < tp.get_current_temp →
        annealing_function tp old_value new_value = 1) := by
  refine ⟨fun h => by simp [annealing_function, h],
    fun h => by simp [annealing_function, h], fun he ht => ?_⟩
  simp [annealing_function, ne_of_gt ht, he]

/-- Claim C5 witness: temperature 0 gives weight 0 at values 5 and 6;
temperature 1 gives the reciprocal-exponential at values 5 and 7 and gives
exactly 1 at the tie 5, 5. -/
theorem C5_annealing_function_contract_witness :
    annealing_function ⟨fun _ => 0, 0⟩ 5 6 = 0 ∧
      annealing_function ⟨fun _ => 1, 0⟩ 5 7 = 1 / Real.exp ((7 - 5) / 1) ∧
      annealing_function ⟨fun _ => 1, 0⟩ 5 5 = 1 :=
  ⟨(C5_annealing_function_contract ⟨fun _ => 0, 0⟩ 5 6).1 rfl,
    (C5_annealing_function_contract ⟨fun _ => 1, 0⟩ 5 7).2.1
      (by simp [TempParams.get_current_temp]),
    (C5_annealing_function_contract ⟨fun _ => 1, 0⟩ 5 5).2.2 rfl
      (by simp [TempParams.get_current_temp])⟩

/-- Claim C6 (amended): whenever the inner loop completes without raising
— in particular always when the step count is 0 — the iteration returns
normally, writes exactly one entry at index `iter_count` in each buffer
(every other index is unchanged), records the pre-advance temperature (the
schedule is untouched by the inner steps), advances the schedule exactly
once after the writes (the final schedule is one `update_temp` past the
recorded one), and with step count 0 leaves the problem state and random
cursor unchanged while still recording the unchanged current solution. -/
theorem C6_iteration_frame {α : Type} (rng : ℕ → ℝ) (sa : SimulatedAnnealing α)
    (iter_count : ℕ) (temps : ℕ → ℝ) (solutions : ℕ → Val α) (rix : ℕ)
    (sa' : SimulatedAnnealing α) (rix' : ℕ)
    (hsteps : annealing_steps rng (sa.iteration_function iter_count) sa rix =
      .ok (sa', rix')) :
    perform_annealing_iteration rng sa iter_count temps solutions rix =
      .ok ({ sa' with temp_params := sa'.temp_params.update_temp },
        Function.update temps iter_count sa.temp_params.get_current_temp,
        Function.update solutions iter_count sa'.problem.get_current_solution,
        rix') ∧
      (∀ j, j ≠ iter_count →
        Function.update temps iter_count sa.temp_params.get_current_temp j = temps j) ∧
      (∀ j, j ≠ iter_count →
        Function.update solutions iter_count sa'.problem.get_current_solution j =
          solutions j) ∧
      sa'.temp_params = sa.temp_params ∧
      (sa.iteration_function iter_count = 0 → sa' = sa ∧ rix' = rix) := by
  have htp := (annealing_steps_state rng (sa.iteration_function iter_count) sa rix sa' rix'
    hsteps).1
  refine ⟨?_, ?_, ?_, htp, ?_⟩
  · simp [perform_annealing_iteration, hsteps, except_bind_ok, htp, pure, Except.pure]
  · intro j hj
    exact Function.update_noteq hj _ _
  · intro j hj
    exact Function.update_noteq hj _ _
  · intro h0
    rw [h0] at hsteps
    simp [annealing_steps] at hsteps
    exact ⟨hsteps.1.symm, hsteps.2.symm⟩

/-- Claim C6 witness: the amended statement on the concrete annealer
`C6sa`, whose iteration function returns 0 at index 3: the loop of zero
steps succeeds, index 3 of each buffer is written, other indices keep
their old entries, and the schedule advances once. -/
theorem C6_iteration_frame_witness :
    annealing_steps (fun _ => 0) (C6sa.iteration_function 3) C6sa 0 = .ok (C6sa, 0) ∧
      (perform_annealing_iteration (fun _ => 0) C6sa 3 (fun _ => (0:ℝ))
          (fun _ => Val.base 0) 0 =
        .ok ({ C6sa with temp_params := C6sa.temp_params.update_temp },
          Function.update (fun _ => (0:ℝ)) 3 C6sa.temp_params.get_current_temp,
          Function.update (fun _ => Val.base 0) 3 C6sa.problem.get_current_solution,
          0) ∧
      (∀ j, j ≠ 3 →
        Function.update (fun _ => (0:ℝ)) 3 C6sa.temp_params.get_current_temp j =
          (fun _ => (0:ℝ)) j) ∧
      (∀ j, j ≠ 3 →
        Function.update (fun _ => Val.base 0) 3 C6sa.problem.get_current_solution j =
          (fun _ => Val.base 0) j) ∧
      C6sa.temp_params = C6sa.temp_params ∧
      (C6sa.iteration_function 3 = 0 → C6sa = C6sa ∧ 0 = 0)) :=
  ⟨rfl, C6_iteration_frame (fun _ => 0) C6sa 3 (fun _ => (0:ℝ)) (fun _ => Val.base 0) 0
    C6sa 0 rfl⟩

/-- Claim C6 counterexample: with a nonzero step count on an ordinary
freshly constructed problem, the claimed unconditional behaviour fails —
the iteration raises `AttributeError` inside the first inner step, so no
buffer entry is written and the schedule is not advanced. -/
theorem C6_iteration_step_fault_writes_nothing :
    perform_annealing_iteration (fun _ => 0)
      ⟨⟨fun _ => 5, 0⟩, fun _ => 1,
        OptimizationProblem.init (Val.base 0 : Val ℕ) (fun _ => 0) (fun v => v)⟩
      3 (fun _ => (0:ℝ)) (fun _ => Val.base 0) 0 = .error .attributeError := rfl

/-- Claim C7 (confirmed): `find_neighbour_solution` returns the brand-new
Solution pairing the updated value with its freshly evaluated objective,
leaves the problem state — in particular the current solution — unchanged,
and `update_current_solution` is the operation that replaces the current
solution slot. -/
theorem C7_find_neighbour_solution_frame {α : Type} (p : OptimizationProblem α) :
    (p.find_neighbour_solution).1 =
        ⟨p.solution_updater p.get_current_solution,
          p.objective_function (p.solution_updater p.get_current_solution)⟩ ∧
      (p.find_neighbour_solution).2 = p ∧
      (p.find_neighbour_solution).2.get_current_solution = p.get_current_solution ∧
      ∀ nv : Val α, (p.update_current_solution nv).current_solution =
        ⟨nv, p.objective_function nv⟩ :=
  ⟨rfl, rfl, rfl, fun _ => rfl⟩

/-- Claim C8 (confirmed): the stored objective value of the current
solution equals the objective function applied to its stored value, both
immediately after construction and immediately after any call to
`update_current_solution` from any state — the objective is recomputed on
every update. -/
theorem C8_objective_value_invariant {α : Type} (x : Val α) (f : Val α → ℝ)
    (u : Val α → Val α) (p : OptimizationProblem α) (nv : Val α) :
    (OptimizationProblem.init x f u).objective_consistent ∧
      (p.update_current_solution nv).objective_consistent :=
  ⟨rfl, rfl⟩

/-- Claim C9 (confirmed): constructing a problem with initial value `x`
and objective `f` evaluates `f` exactly once (the instrumented call
counter ends at 1), yields `get_current_objective_value() = f x` exactly,
and the instrumented construction builds the same problem as the plain
one. -/
theorem C9_construction_roundtrip {α : Type} (x : Val α) (f : Val α → ℝ)
    (u : Val α → Val α) :
    (OptimizationProblem.init_counted x f u 0).1.get_current_objective_value = f x ∧
      (OptimizationProblem.init_counted x f u 0).2 = 1 ∧
      (OptimizationProblem.init_counted x f u 0).1 = OptimizationProblem.init x f u :=
  ⟨rfl, rfl, rfl⟩

/-- Claim C10 (confirmed): on strict improvement the decision is `true`
with no draw consumed and is identical under any two temperature
schedules whatsoever — the strict-improvement path never reads the
schedule, so even a malformed temperature cannot affect it. -/
theorem C10_improvement_ignores_schedule (tp tp' : TempParams) (rng : ℕ → ℝ)
    (old_value new_value : ℝ) (rix : ℕ) (h : new_value < old_value) :
    should_change_solution tp rng old_value new_value rix = (true, rix) ∧
      should_change_solution tp rng old_value new_value rix =
        should_change_solution tp' rng old_value new_value rix := by
  simp [should_change_solution, h]

/-- Claim C10 witness: improvement 3 < 5 is accepted without a draw under
a malformed schedule at temperature minus 1, and the decision coincides
with the one under temperature 7. -/
theorem C10_improvement_ignores_schedule_witness :
    should_change_solution ⟨fun _ => -1, 0⟩ (fun _ => 0) 5 3 0 = (true, 0) ∧
      should_change_solution ⟨fun _ => -1, 0⟩ (fun _ => 0) 5 3 0 =
        should_change_solution ⟨fun _ => 7, 0⟩ (fun _ => 0) 5 3 0 :=
  C10_improvement_ignores_schedule ⟨fun _ => -1, 0⟩ ⟨fun _ => 7, 0⟩ (fun _ => 0) 5 3 0
    (by norm_num)
